import Mathlib

/-!
Verification of the remote-commander client: a shallow embedding of the
HTTP client (http-client.ts, class HttpClient) and the filesystem facade
(src/tools/filesystem.ts) of the Positronic-AI/remote-commander repository.

JavaScript values flowing through the client are modelled by a small JSON
value type; JavaScript truthiness, property access, the logical-or
fallback, string coercion and uppercasing are modelled explicitly, since
the source relies on them (for example `response.data?.data ||
response.data`). Network transport is modelled by an explicit outcome
parameter: a fetch either throws (with the message of the thrown Error, or
none when a non-Error was thrown) or returns a response with a status, a
status text and a body whose JSON parse either succeeds or throws. Thrown
JavaScript exceptions are modelled by `Except.error`.
-/

namespace RC

/-- A JSON value as produced by `response.json()`. JSON numbers are
modelled as integers, which covers every number the claims mention. -/
inductive Json where
  | null
  | bool (b : Bool)
  | num (n : Int)
  | str (s : String)
  | arr (elems : List Json)
  | obj (fields : List (String × Json))

/-- JavaScript truthiness of a JSON value: null, false, 0 and the empty
string are falsy; every array and object is truthy. -/
def Json.truthy : Json → Bool
  | .null => false
  | .bool b => b
  | .num n => !(n == 0)
  | .str s => !s.isEmpty
  | .arr _ => true
  | .obj _ => true

/-- Property access `v.key` on a JSON value: defined fields of objects are
found, everything else (including access on primitives and arrays) yields
undefined, modelled as `none`. -/
def jsGetField : Json → String → Option Json
  | .obj fields, key => (fields.find? (fun f => f.1 == key)).map (fun f => f.2)
  | _, _ => none

/-- The JavaScript `x || y` fallback on possibly-undefined values
(`none` is undefined): `x` when `x` is defined and truthy, else `y`. -/
def jsOr (x y : Option Json) : Option Json :=
  match x with
  | some v => if v.truthy then some v else y
  | none => y

/-- The JavaScript `s.startsWith(p)` builtin: `p` is a prefix of `s`. -/
def jsStartsWith (s p : String) : Bool := p.data.isPrefixOf s.data

/-- The JavaScript `s.toUpperCase()` builtin, on the ASCII range the
directory-listing type tags use. -/
def jsToUpperCase (s : String) : String := String.mk (s.data.map Char.toUpper)

mutual

/-- The JavaScript `String(v)` coercion: `String(null) = "null"`, numbers
and booleans print themselves, objects print as `[object Object]` and an
array prints as its elements joined by commas (null elements as nothing). -/
def jsToString : Json → String
  | .null => "null"
  | .bool b => cond b "true" "false"
  | .num n => toString n
  | .str s => s
  | .obj _ => "[object Object]"
  | .arr xs => jsJoinList xs

/-- Comma join used by `Array.prototype.toString`. -/
def jsJoinList : List Json → String
  | [] => ""
  | [x] => jsElemString x
  | x :: rest => jsElemString x ++ "," ++ jsJoinList rest

/-- An array element inside a join: null renders as the empty string. -/
def jsElemString : Json → String
  | .null => ""
  | .bool b => cond b "true" "false"
  | .num n => toString n
  | .str s => s
  | .obj _ => "[object Object]"
  | .arr xs => jsJoinList xs

end

/-- The message extracted from a caught JavaScript exception:
`error instanceof Error ? error.message : "Unknown error"`. A thrown
non-Error is modelled as `none`. -/
def errorMessage : Option String → String
  | some m => m
  | none => "Unknown error"

/-- Interface HttpClientConfig of http-client.ts: the configuration the
client holds once `init` has run. -/
structure HttpClientConfig where
  serverUrl : String
  authUrl : Option String
  authToken : String
  basePath : String
  username : Option String
  password : Option String
deriving Repr, DecidableEq

/-- The raw configuration `configManager.getConfig()` returns; every field
may be absent. The configuration provider is an external collaborator, so
only the fields http-client.ts reads are modelled. -/
structure ServerConfig where
  serverUrl : Option String := none
  authUrl : Option String := none
  authToken : Option String := none
  basePath : Option String := none
  username : Option String := none
  password : Option String := none
deriving Repr, DecidableEq

/-- JavaScript truthiness of a possibly-absent string: absent and empty
are falsy. -/
def optStrTruthy : Option String → Bool
  | none => false
  | some s => !s.isEmpty

/-- Interface ApiResponse of http-client.ts, the uniform envelope
`{success, data?, error?}`. -/
structure ApiResponse where
  success : Bool
  data? : Option Json := none
  error? : Option String := none

/-- The outcome of one `fetch` call: either the promise rejects (the
client catches the exception), or a response arrives with an HTTP status,
a status text and a body whose `response.json()` parse either yields a
JSON value or throws. -/
inductive FetchOutcome where
  | netError (msg : Option String)
  | resp (status : Nat) (statusText : String) (body : Except (Option String) Json)

/-- The JavaScript `response.ok` flag: status in the range 200..299. -/
def statusOk (status : Nat) : Bool := 200 ≤ status && status < 300

namespace HttpClient

/-- HttpClient.init, the configuration-loading part (lines 77..91 of
http-client.ts): throws when `serverUrl` or `basePath` is falsy (absent or
empty), else builds the client configuration, defaulting `authToken` to
the empty string. -/
def initConfig (sc : ServerConfig) : Except String HttpClientConfig :=
  if !optStrTruthy sc.serverUrl || !optStrTruthy sc.basePath then
    Except.error "HTTP client configuration incomplete. Please set serverUrl and basePath in config."
  else
    Except.ok {
      serverUrl := sc.serverUrl.getD ""
      authUrl := sc.authUrl
      authToken := sc.authToken.getD ""
      basePath := sc.basePath.getD ""
      username := sc.username
      password := sc.password
    }

/-- The condition of line 94 of http-client.ts under which `init` calls
`authenticate`: no auth token yet, and username and password present. -/
def needsAuth (c : HttpClientConfig) : Bool :=
  c.authToken.isEmpty && optStrTruthy c.username && optStrTruthy c.password

/-- HttpClient.validatePath (lines 143..155) on an initialized client: a
path that does not already start with `basePath` gets `basePath`
prepended, with a separating slash inserted unless the path starts with
one; a path that already starts with `basePath` is returned unchanged. -/
def validatePath (config : HttpClientConfig) (requestPath : String) : String :=
  if !(jsStartsWith requestPath config.basePath) then
    config.basePath ++ (if jsStartsWith requestPath "/" then "" else "/") ++ requestPath
  else
    requestPath

/-- HttpClient.makeRequest (lines 160..197). The client state is the
possibly-absent configuration; an uninitialized client throws. For an
initialized client the fetch outcome is classified: a rejected fetch (or a
body whose JSON parse throws, both caught by the same catch block) yields
a Network error envelope, a non-2xx response yields an HTTP status
envelope, and a 2xx response with a parsed body yields a success
envelope. -/
def makeRequest (config : Option HttpClientConfig) (endpoint : String) (data : Json)
    (outcome : FetchOutcome) : Except String ApiResponse :=
  match config with
  | none => Except.error "HTTP client not initialized"
  | some _ =>
    match outcome with
    | .netError m =>
        Except.ok { success := false, error? := some ("Network error: " ++ errorMessage m) }
    | .resp status statusText body =>
        if !statusOk status then
          Except.ok { success := false,
                      error? := some ("HTTP " ++ toString status ++ ": " ++ statusText) }
        else
          match body with
          | .ok j => Except.ok { success := true, data? := some j }
          | .error m =>
              Except.ok { success := false, error? := some ("Network error: " ++ errorMessage m) }

end HttpClient

/-- Interface FileReadRequest of http-client.ts. -/
structure FileReadRequest where
  path : String
  offset : Option Int := none
  length : Option Int := none
  isUrl : Option Bool := none
deriving Repr, DecidableEq

/-- The write mode of interface FileWriteRequest. -/
inductive WriteMode where
  | rewrite
  | append
deriving Repr, DecidableEq

/-- Interface FileWriteRequest of http-client.ts. -/
structure FileWriteRequest where
  path : String
  content : String
  mode : Option WriteMode := none
deriving Repr, DecidableEq

/-- Interface DirectoryListRequest of http-client.ts. -/
structure DirectoryListRequest where
  path : String
deriving Repr, DecidableEq

/-- Interface FileSearchRequest of http-client.ts. -/
structure FileSearchRequest where
  path : String
  pattern : String
  timeoutMs : Option Int := none
deriving Repr, DecidableEq

/-- Interface CodeSearchRequest of http-client.ts. -/
structure CodeSearchRequest where
  path : String
  pattern : String
  contextLines : Option Int := none
  filePattern : Option String := none
  ignoreCase : Option Bool := none
  includeHidden : Option Bool := none
  maxResults : Option Int := none
  timeoutMs : Option Int := none
deriving Repr, DecidableEq

/-- Interface CreateDirectoryRequest of http-client.ts. -/
structure CreateDirectoryRequest where
  path : String
deriving Repr, DecidableEq

/-- Interface GetFileInfoRequest of http-client.ts. -/
structure GetFileInfoRequest where
  path : String
deriving Repr, DecidableEq

/-- Interface EditBlockRequest of http-client.ts; its path field is named
`file_path`. -/
structure EditBlockRequest where
  file_path : String
  old_string : String
  new_string : String
  expected_replacements : Option Int := none
deriving Repr, DecidableEq

/-- An optional integer field of a JSON body: absent fields are dropped by
`JSON.stringify`. -/
def optNumField (key : String) (v : Option Int) : List (String × Json) :=
  match v with
  | some n => [(key, Json.num n)]
  | none => []

/-- An optional boolean field of a JSON body. -/
def optBoolField (key : String) (v : Option Bool) : List (String × Json) :=
  match v with
  | some b => [(key, Json.bool b)]
  | none => []

/-- An optional string field of a JSON body. -/
def optStrField (key : String) (v : Option String) : List (String × Json) :=
  match v with
  | some s => [(key, Json.str s)]
  | none => []

/-- The JSON body `JSON.stringify` produces for a FileReadRequest. -/
def FileReadRequest.toJson (r : FileReadRequest) : Json :=
  Json.obj ([("path", Json.str r.path)] ++ optNumField "offset" r.offset ++
    optNumField "length" r.length ++ optBoolField "isUrl" r.isUrl)

/-- The JSON body for a FileWriteRequest. -/
def FileWriteRequest.toJson (r : FileWriteRequest) : Json :=
  Json.obj ([("path", Json.str r.path), ("content", Json.str r.content)] ++
    optStrField "mode" (r.mode.map (fun m => match m with
      | WriteMode.rewrite => "rewrite"
      | WriteMode.append => "append")))

/-- The JSON body for a DirectoryListRequest. -/
def DirectoryListRequest.toJson (r : DirectoryListRequest) : Json :=
  Json.obj [("path", Json.str r.path)]

/-- The JSON body for a FileSearchRequest. -/
def FileSearchRequest.toJson (r : FileSearchRequest) : Json :=
  Json.obj ([("path", Json.str r.path), ("pattern", Json.str r.pattern)] ++
    optNumField "timeoutMs" r.timeoutMs)

/-- The JSON body for a CodeSearchRequest. -/
def CodeSearchRequest.toJson (r : CodeSearchRequest) : Json :=
  Json.obj ([("path", Json.str r.path), ("pattern", Json.str r.pattern)] ++
    optNumField "contextLines" r.contextLines ++ optStrField "filePattern" r.filePattern ++
    optBoolField "ignoreCase" r.ignoreCase ++ optBoolField "includeHidden" r.includeHidden ++
    optNumField "maxResults" r.maxResults ++ optNumField "timeoutMs" r.timeoutMs)

/-- The JSON body for a CreateDirectoryRequest. -/
def CreateDirectoryRequest.toJson (r : CreateDirectoryRequest) : Json :=
  Json.obj [("path", Json.str r.path)]

/-- The JSON body for a GetFileInfoRequest. -/
def GetFileInfoRequest.toJson (r : GetFileInfoRequest) : Json :=
  Json.obj [("path", Json.str r.path)]

/-- The JSON body for an EditBlockRequest. -/
def EditBlockRequest.toJson (r : EditBlockRequest) : Json :=
  Json.obj ([("file_path", Json.str r.file_path), ("old_string", Json.str r.old_string),
    ("new_string", Json.str r.new_string)] ++
    optNumField "expected_replacements" r.expected_replacements)

namespace HttpClient

/-- The request HttpClient.readFile hands to makeRequest:
`{...request, path: validatedPath}` (line 204). -/
def readFileSent (c : HttpClientConfig) (r : FileReadRequest) : FileReadRequest :=
  { r with path := validatePath c r.path }

/-- The request HttpClient.writeFile hands to makeRequest (line 223). -/
def writeFileSent (c : HttpClientConfig) (r : FileWriteRequest) : FileWriteRequest :=
  { r with path := validatePath c r.path }

/-- The request HttpClient.listDirectory hands to makeRequest (line 231). -/
def listDirectorySent (c : HttpClientConfig) (r : DirectoryListRequest) : DirectoryListRequest :=
  { r with path := validatePath c r.path }

/-- The request HttpClient.searchFiles hands to makeRequest (line 256). -/
def searchFilesSent (c : HttpClientConfig) (r : FileSearchRequest) : FileSearchRequest :=
  { r with path := validatePath c r.path }

/-- The request HttpClient.searchCode hands to makeRequest (line 264). -/
def searchCodeSent (c : HttpClientConfig) (r : CodeSearchRequest) : CodeSearchRequest :=
  { r with path := validatePath c r.path }

/-- The request HttpClient.createDirectory hands to makeRequest (line 272). -/
def createDirectorySent (c : HttpClientConfig) (r : CreateDirectoryRequest) : CreateDirectoryRequest :=
  { r with path := validatePath c r.path }

/-- The request HttpClient.getFileInfo hands to makeRequest (line 280). -/
def getFileInfoSent (c : HttpClientConfig) (r : GetFileInfoRequest) : GetFileInfoRequest :=
  { r with path := validatePath c r.path }

/-- The request HttpClient.editBlock hands to makeRequest (line 288): the
validated path replaces the `file_path` field. -/
def editBlockSent (c : HttpClientConfig) (r : EditBlockRequest) : EditBlockRequest :=
  { r with file_path := validatePath c r.file_path }

/-- HttpClient.readFile (lines 202..216). After a successful request the
content is unwrapped with `response.data?.data || response.data`. -/
def readFile (config : Option HttpClientConfig) (req : FileReadRequest)
    (outcome : FetchOutcome) : Except String ApiResponse :=
  match config with
  | none => Except.error "HTTP client not initialized"
  | some c =>
    match makeRequest (some c) "read_file" (FileReadRequest.toJson (readFileSent c req)) outcome with
    | .error e => Except.error e
    | .ok response =>
      if !response.success then
        Except.ok response
      else
        Except.ok { success := true,
                    data? := jsOr ((response.data?).bind (fun d => jsGetField d "data"))
                                  response.data? }

/-- HttpClient.writeFile (lines 221..224): no response reshaping. -/
def writeFile (config : Option HttpClientConfig) (req : FileWriteRequest)
    (outcome : FetchOutcome) : Except String ApiResponse :=
  match config with
  | none => Except.error "HTTP client not initialized"
  | some c =>
    makeRequest (some c) "write_file" (FileWriteRequest.toJson (writeFileSent c req)) outcome

/-- One entry of the detailed list_directory response mapped to a string
(lines 239..243): a string passes through, an entry with a truthy `name`
becomes `[TYPE] name` (type uppercased, FILE when absent or empty), and
every other entry is coerced with `String(item)`. Property access on null
throws a TypeError, as does `.toUpperCase()` on a non-string type tag. -/
def listItemToName (item : Json) : Except String String :=
  match item with
  | .str s => Except.ok s
  | .null => Except.error "TypeError: cannot read properties of null"
  | _ =>
    match jsGetField item "name" with
    | some nameV =>
      if nameV.truthy then
        match jsGetField item "type" with
        | none => Except.ok ("[FILE] " ++ jsToString nameV)
        | some Json.null => Except.ok ("[FILE] " ++ jsToString nameV)
        | some (Json.str t) =>
            Except.ok ("[" ++ (if (jsToUpperCase t).isEmpty then "FILE" else jsToUpperCase t) ++
              "] " ++ jsToString nameV)
        | some _ => Except.error "TypeError: toUpperCase is not a function"
      else Except.ok (jsToString item)
    | none => Except.ok (jsToString item)

/-- HttpClient.listDirectory (lines 229..249). After a successful request
the items are taken from `response.data?.data || response.data || []` and
each is mapped to a display string. -/
def listDirectory (config : Option HttpClientConfig) (req : DirectoryListRequest)
    (outcome : FetchOutcome) : Except String ApiResponse :=
  match config with
  | none => Except.error "HTTP client not initialized"
  | some c =>
    match makeRequest (some c) "list_directory"
        (DirectoryListRequest.toJson (listDirectorySent c req)) outcome with
    | .error e => Except.error e
    | .ok response =>
      if !response.success then
        Except.ok response
      else
        match jsOr (jsOr ((response.data?).bind (fun d => jsGetField d "data"))
            response.data?) (some (Json.arr [])) with
        | some (Json.arr items) =>
          match items.mapM listItemToName with
          | .error e => Except.error e
          | .ok names =>
              Except.ok { success := true, data? := some (Json.arr (names.map Json.str)) }
        | _ => Except.error "TypeError: map is not a function"

/-- HttpClient.searchFiles (lines 254..257): no response reshaping. -/
def searchFiles (config : Option HttpClientConfig) (req : FileSearchRequest)
    (outcome : FetchOutcome) : Except String ApiResponse :=
  match config with
  | none => Except.error "HTTP client not initialized"
  | some c =>
    makeRequest (some c) "search_files" (FileSearchRequest.toJson (searchFilesSent c req)) outcome

/-- HttpClient.searchCode (lines 262..265): no response reshaping. -/
def searchCode (config : Option HttpClientConfig) (req : CodeSearchRequest)
    (outcome : FetchOutcome) : Except String ApiResponse :=
  match config with
  | none => Except.error "HTTP client not initialized"
  | some c =>
    makeRequest (some c) "search_code" (CodeSearchRequest.toJson (searchCodeSent c req)) outcome

/-- HttpClient.createDirectory (lines 270..273): no response reshaping. -/
def createDirectory (config : Option HttpClientConfig) (req : CreateDirectoryRequest)
    (outcome : FetchOutcome) : Except String ApiResponse :=
  match config with
  | none => Except.error "HTTP client not initialized"
  | some c =>
    makeRequest (some c) "create_directory"
      (CreateDirectoryRequest.toJson (createDirectorySent c req)) outcome

/-- HttpClient.getFileInfo (lines 278..281): no response reshaping. -/
def getFileInfo (config : Option HttpClientConfig) (req : GetFileInfoRequest)
    (outcome : FetchOutcome) : Except String ApiResponse :=
  match config with
  | none => Except.error "HTTP client not initialized"
  | some c =>
    makeRequest (some c) "get_file_info" (GetFileInfoRequest.toJson (getFileInfoSent c req)) outcome

/-- HttpClient.editBlock (lines 286..289): no response reshaping. -/
def editBlock (config : Option HttpClientConfig) (req : EditBlockRequest)
    (outcome : FetchOutcome) : Except String ApiResponse :=
  match config with
  | none => Except.error "HTTP client not initialized"
  | some c =>
    makeRequest (some c) "edit_block" (EditBlockRequest.toJson (editBlockSent c req)) outcome

/-- An observable event of one facade call: the client either runs the
OAuth2 password grant or issues an API request. -/
inductive Event where
  | authenticate
  | request (endpoint : String)
deriving Repr, DecidableEq

/-- The events of one facade call. Every facade function awaits
`httpClient.init()` and then performs one operation. `init` re-reads the
provider configuration `sc`, overwrites the client configuration with it
(including `authToken := sc.authToken.getD ""`) and, when the rebuilt
configuration still needs authentication, calls `authenticate` (line 95);
`authOk` tells whether that call succeeds. A failed init or a failed
authentication rejects, so no request is issued. The token `authenticate`
acquires is stored only in the in-memory client configuration, which the
next `init` overwrites; it is never written back to the provider. -/
def facadeCallTrace (sc : ServerConfig) (authOk : Bool) (endpoint : String) : List Event :=
  match initConfig sc with
  | .error _ => []
  | .ok c =>
    if needsAuth c then
      if authOk then [Event.authenticate, Event.request endpoint]
      else [Event.authenticate]
    else [Event.request endpoint]

/-- The combined events of a sequence of facade calls, each with the
provider configuration loaded at its start. -/
def facadeCallsTrace (calls : List (ServerConfig × Bool × String)) : List Event :=
  (calls.map (fun t => facadeCallTrace t.1 t.2.1 t.2.2)).flatten

/-- How many times a trace runs `authenticate`. -/
def authCount (tr : List Event) : Nat :=
  (tr.filter (fun e => match e with | Event.authenticate => true | _ => false)).length

end HttpClient

namespace Filesystem

/-- Interface FileResult of src/tools/filesystem.ts. -/
structure FileResult where
  content : String
  mimeType : String
  isImage : Bool
deriving Repr, DecidableEq

/-- Interface MultiFileResult of src/tools/filesystem.ts. -/
structure MultiFileResult where
  path : String
  content? : Option String := none
  mimeType? : Option String := none
  isImage? : Option Bool := none
  error? : Option String := none
deriving Repr, DecidableEq

/-- The exported validatePath of src/tools/filesystem.ts (lines 21..24):
a placeholder that returns its input unchanged, since prefixing now
happens inside the HTTP client. -/
def validatePath (inputPath : String) : String := inputPath

/-- readMultipleFiles of src/tools/filesystem.ts (lines 114..137).
`readOne` is the facade readFile, which either yields a FileResult or
throws (`Except.error` carries the thrown value, `none` for a non-Error).
The loop walks the paths in order; a successful read is recorded with its
content, a throw is caught and recorded as a per-path error entry, and the
loop continues either way. -/
def readMultipleFiles (readOne : String → Except (Option String) FileResult) :
    List String → List MultiFileResult
  | [] => []
  | p :: rest =>
    (match readOne p with
     | .ok r =>
        { path := p, content? := some r.content, mimeType? := some r.mimeType,
          isImage? := some r.isImage }
     | .error e => { path := p, error? := some (errorMessage e) }) ::
    readMultipleFiles readOne rest

end Filesystem

/-! Concrete instances the witnesses and counterexamples evaluate. -/

/-- A sample initialized client configuration with basePath `/base`. -/
def baseCfg : HttpClientConfig :=
  { serverUrl := "http://server", authUrl := none, authToken := "", basePath := "/base",
    username := none, password := none }

/-- A provider configuration whose serverUrl is present but empty. -/
def scEmptyUrl : ServerConfig := { serverUrl := some "", basePath := some "/base" }

/-- A complete provider configuration with credentials but no auth
token. -/
def scNoToken : ServerConfig :=
  { serverUrl := some "http://server", basePath := some "/base",
    username := some "alice", password := some "secret" }

/-- A sample facade readFile oracle: path `/a` reads successfully, every
other path makes the server answer 404, which the facade turns into a
thrown error. -/
def fEx : String → Except (Option String) Filesystem.FileResult :=
  fun p =>
    if p = "/a" then
      Except.ok { content := "A", mimeType := "text/plain", isImage := false }
    else
      Except.error (some "HTTP 404: Not Found")

/-! Helper lemmas shared by the claim theorems. -/

/-- Appending never loses the left part as a prefix. -/
theorem jsStartsWith_append (a b : String) : jsStartsWith (a ++ b) a = true := by
  simp [jsStartsWith, List.isPrefixOf_iff_prefix, String.data_append]

/-- Looking up the first field of an object finds it. -/
theorem jsGetField_obj_head (k : String) (v : Json) (rest : List (String × Json)) :
    jsGetField (Json.obj ((k, v) :: rest)) k = some v := by
  simp [jsGetField, List.find?]

/-- validatePath leaves a path that already starts with basePath alone. -/
theorem validatePath_of_startsWith (c : HttpClientConfig) (p : String)
    (h : jsStartsWith p c.basePath = true) : HttpClient.validatePath c p = p := by
  simp [HttpClient.validatePath, h]

/-- validatePath prepends basePath, and a separating slash when the path
does not begin with one, to a path that does not start with basePath. -/
theorem validatePath_of_not_startsWith (c : HttpClientConfig) (p : String)
    (h : jsStartsWith p c.basePath = false) :
    HttpClient.validatePath c p =
      c.basePath ++ (if jsStartsWith p "/" then "" else "/") ++ p := by
  simp [HttpClient.validatePath, h]

/-- Every validatePath result starts with basePath. -/
theorem validatePath_startsWith_basePath (c : HttpClientConfig) (p : String) :
    jsStartsWith (HttpClient.validatePath c p) c.basePath = true := by
  cases h : jsStartsWith p c.basePath with
  | true => rw [validatePath_of_startsWith c p h]; exact h
  | false =>
      rw [validatePath_of_not_startsWith c p h, String.append_assoc]
      exact jsStartsWith_append _ _

/-- validatePath is idempotent. -/
theorem validatePath_idem (c : HttpClientConfig) (p : String) :
    HttpClient.validatePath c (HttpClient.validatePath c p) = HttpClient.validatePath c p :=
  validatePath_of_startsWith c _ (validatePath_startsWith_basePath c p)

/-! The claim theorems. -/

/-- C1: every exposed client operation (readFile, writeFile,
listDirectory, searchFiles, searchCode, createDirectory, getFileInfo,
editBlock) sends a request body whose path field (file_path for
editBlock) is the validatePath image of the input path; that image always
starts with basePath, is the input unchanged when the input already
starts with basePath, and is the input with basePath prepended
otherwise. -/
theorem claim1_outbound_paths_prefixed (c : HttpClientConfig) :
    (∀ r : FileReadRequest,
      jsGetField (FileReadRequest.toJson (HttpClient.readFileSent c r)) "path" =
        some (Json.str (HttpClient.validatePath c r.path))) ∧
    (∀ r : FileWriteRequest,
      jsGetField (FileWriteRequest.toJson (HttpClient.writeFileSent c r)) "path" =
        some (Json.str (HttpClient.validatePath c r.path))) ∧
    (∀ r : DirectoryListRequest,
      jsGetField (DirectoryListRequest.toJson (HttpClient.listDirectorySent c r)) "path" =
        some (Json.str (HttpClient.validatePath c r.path))) ∧
    (∀ r : FileSearchRequest,
      jsGetField (FileSearchRequest.toJson (HttpClient.searchFilesSent c r)) "path" =
        some (Json.str (HttpClient.validatePath c r.path))) ∧
    (∀ r : CodeSearchRequest,
      jsGetField (CodeSearchRequest.toJson (HttpClient.searchCodeSent c r)) "path" =
        some (Json.str (HttpClient.validatePath c r.path))) ∧
    (∀ r : CreateDirectoryRequest,
      jsGetField (CreateDirectoryRequest.toJson (HttpClient.createDirectorySent c r)) "path" =
        some (Json.str (HttpClient.validatePath c r.path))) ∧
    (∀ r : GetFileInfoRequest,
      jsGetField (GetFileInfoRequest.toJson (HttpClient.getFileInfoSent c r)) "path" =
        some (Json.str (HttpClient.validatePath c r.path))) ∧
    (∀ r : EditBlockRequest,
      jsGetField (EditBlockRequest.toJson (HttpClient.editBlockSent c r)) "file_path" =
        some (Json.str (HttpClient.validatePath c r.file_path))) ∧
    (∀ p, jsStartsWith (HttpClient.validatePath c p) c.basePath = true) ∧
    (∀ p, jsStartsWith p c.basePath = true → HttpClient.validatePath c p = p) ∧
    (∀ p, jsStartsWith p c.basePath = false →
      HttpClient.validatePath c p =
        c.basePath ++ (if jsStartsWith p "/" then "" else "/") ++ p) := by
  refine ⟨fun r => ?_, fun r => ?_, fun r => ?_, fun r => ?_, fun r => ?_, fun r => ?_,
    fun r => ?_, fun r => ?_, validatePath_startsWith_basePath c,
    validatePath_of_startsWith c, validatePath_of_not_startsWith c⟩ <;>
    simp [FileReadRequest.toJson, FileWriteRequest.toJson, DirectoryListRequest.toJson,
      FileSearchRequest.toJson, CodeSearchRequest.toJson, CreateDirectoryRequest.toJson,
      GetFileInfoRequest.toJson, EditBlockRequest.toJson, HttpClient.readFileSent,
      HttpClient.writeFileSent, HttpClient.listDirectorySent, HttpClient.searchFilesSent,
      HttpClient.searchCodeSent, HttpClient.createDirectorySent, HttpClient.getFileInfoSent,
      HttpClient.editBlockSent, jsGetField_obj_head]

/-- C1 witness: the transmitted read_file body for input path `/foo`
against basePath `/base` carries path `/base/foo`. -/
theorem claim1_witness :
    jsGetField (FileReadRequest.toJson (HttpClient.readFileSent baseCfg { path := "/foo" }))
      "path" = some (Json.str "/base/foo") := by
  have h := (claim1_outbound_paths_prefixed baseCfg).1 { path := "/foo" }
  rw [h]
  rfl

/-- C5: validatePath prepends basePath (with a separating slash unless
the path starts with one) when the path does not already start with
basePath, returns the path unchanged otherwise, and is idempotent. -/
theorem claim5_validatePath_algebra (c : HttpClientConfig) (p : String) :
    (jsStartsWith p c.basePath = true → HttpClient.validatePath c p = p) ∧
    (jsStartsWith p c.basePath = false →
      HttpClient.validatePath c p =
        c.basePath ++ (if jsStartsWith p "/" then "" else "/") ++ p) ∧
    HttpClient.validatePath c (HttpClient.validatePath c p) = HttpClient.validatePath c p :=
  ⟨validatePath_of_startsWith c p, validatePath_of_not_startsWith c p, validatePath_idem c p⟩

/-- C5 witness: with basePath `/base`, `/foo` normalizes to `/base/foo`
and `/base/foo` is left unchanged. -/
theorem claim5_witness :
    HttpClient.validatePath baseCfg "/foo" = "/base/foo" ∧
    HttpClient.validatePath baseCfg "/base/foo" = "/base/foo" := by
  constructor
  · have h := (claim5_validatePath_algebra baseCfg "/foo").2.1 (by decide)
    rw [h]
    decide
  · exact (claim5_validatePath_algebra baseCfg "/base/foo").1 (by decide)

/-- C2: for an initialized client, makeRequest classifies every fetch
outcome into exactly one envelope: a network-level exception yields a
Network error envelope, a non-2xx response yields an HTTP status
envelope (404 yields exactly `HTTP 404: Not Found`), and a 2xx response
with a parsed body yields a success envelope carrying that body. -/
theorem claim2_makeRequest_classification (c : HttpClientConfig) (endpoint : String)
    (data : Json) :
    (∀ m, HttpClient.makeRequest (some c) endpoint data (.netError m) =
      Except.ok { success := false, error? := some ("Network error: " ++ errorMessage m) }) ∧
    (∀ status statusText body, statusOk status = false →
      HttpClient.makeRequest (some c) endpoint data (.resp status statusText body) =
        Except.ok { success := false,
                    error? := some ("HTTP " ++ toString status ++ ": " ++ statusText) }) ∧
    (∀ status statusText j, statusOk status = true →
      HttpClient.makeRequest (some c) endpoint data (.resp status statusText (.ok j)) =
        Except.ok { success := true, data? := some j }) ∧
    HttpClient.makeRequest (some c) endpoint data (.resp 404 "Not Found" (.error none)) =
      Except.ok { success := false, error? := some "HTTP 404: Not Found" } := by
  refine ⟨fun m => rfl, fun status statusText body h => ?_, fun status statusText j h => ?_, rfl⟩
  · simp [HttpClient.makeRequest, h]
  · simp [HttpClient.makeRequest, h]

/-- C2 witness: a 404 with an unparseable body yields the envelope
`{success := false, error := "HTTP 404: Not Found"}`. -/
theorem claim2_witness :
    HttpClient.makeRequest (some baseCfg) "read_file" Json.null
        (.resp 404 "Not Found" (.error none)) =
      Except.ok { success := false, error? := some "HTTP 404: Not Found" } :=
  (claim2_makeRequest_classification baseCfg "read_file" Json.null).2.2.2

/-- C3: for an initialized client, makeRequest never throws: every
endpoint, body and transport outcome (including a 2xx response whose
body fails to parse) yields an envelope, with an error message exactly
when success is false. -/
theorem claim3_makeRequest_never_throws (c : HttpClientConfig) (endpoint : String)
    (data : Json) (outcome : FetchOutcome) :
    ∃ r, HttpClient.makeRequest (some c) endpoint data outcome = Except.ok r ∧
      (r.success = false → (r.error?).isSome = true) ∧
      (r.success = true → r.error? = none) := by
  cases outcome with
  | netError m =>
      exact ⟨{ success := false, error? := some ("Network error: " ++ errorMessage m) },
        rfl, fun _ => rfl, fun h => Bool.noConfusion h⟩
  | resp status statusText body =>
      cases h : statusOk status with
      | false =>
          refine ⟨{ success := false,
                    error? := some ("HTTP " ++ toString status ++ ": " ++ statusText) },
            ?_, fun _ => rfl, fun hc => Bool.noConfusion hc⟩
          simp [HttpClient.makeRequest, h]
      | true =>
          cases body with
          | ok j =>
              refine ⟨{ success := true, data? := some j },
                ?_, fun hc => Bool.noConfusion hc, fun _ => rfl⟩
              simp [HttpClient.makeRequest, h]
          | error m =>
              refine ⟨{ success := false,
                        error? := some ("Network error: " ++ errorMessage m) },
                ?_, fun _ => rfl, fun hc => Bool.noConfusion hc⟩
              simp [HttpClient.makeRequest, h]

/-- C3 witness: a 2xx response whose body fails to parse still yields an
envelope rather than a throw. -/
theorem claim3_witness :
    ∃ r, HttpClient.makeRequest (some baseCfg) "read_file" Json.null
        (.resp 200 "OK" (.error (some "Unexpected token"))) = Except.ok r ∧
      (r.success = false → (r.error?).isSome = true) ∧
      (r.success = true → r.error? = none) :=
  claim3_makeRequest_never_throws baseCfg "read_file" Json.null
    (.resp 200 "OK" (.error (some "Unexpected token")))

/-- C9 counterexample: serverUrl and basePath are both present, yet init
throws the configuration error, because the code tests JavaScript
truthiness (line 80) rather than presence and the serverUrl is the empty
string. -/
theorem claim9_cex :
    scEmptyUrl.serverUrl = some "" ∧ scEmptyUrl.basePath = some "/base" ∧
    HttpClient.initConfig scEmptyUrl = Except.error
      "HTTP client configuration incomplete. Please set serverUrl and basePath in config." :=
  ⟨rfl, rfl, rfl⟩

/-- C9 amended: init fails with the configuration error when serverUrl
or basePath is absent or empty (in particular when either is absent,
regardless of the other fields), and when both are present and non-empty
the client ends up fully configured with exactly those values. -/
theorem claim9_init_configuration (sc : ServerConfig) :
    ((sc.serverUrl = none ∨ sc.basePath = none) →
      HttpClient.initConfig sc = Except.error
        "HTTP client configuration incomplete. Please set serverUrl and basePath in config.") ∧
    ((optStrTruthy sc.serverUrl = false ∨ optStrTruthy sc.basePath = false) →
      HttpClient.initConfig sc = Except.error
        "HTTP client configuration incomplete. Please set serverUrl and basePath in config.") ∧
    (optStrTruthy sc.serverUrl = true → optStrTruthy sc.basePath = true →
      ∃ c, HttpClient.initConfig sc = Except.ok c ∧
        some c.serverUrl = sc.serverUrl ∧ some c.basePath = sc.basePath ∧
        c.authUrl = sc.authUrl ∧ c.authToken = sc.authToken.getD "" ∧
        c.username = sc.username ∧ c.password = sc.password) := by
  refine ⟨fun h => ?_, fun h => ?_, fun hs hb => ?_⟩
  · cases h with
    | inl h => simp [HttpClient.initConfig, h, optStrTruthy]
    | inr h => simp [HttpClient.initConfig, h, optStrTruthy]
  · cases h with
    | inl h => simp [HttpClient.initConfig, h]
    | inr h => simp [HttpClient.initConfig, h]
  · refine ⟨{ serverUrl := sc.serverUrl.getD "", authUrl := sc.authUrl,
               authToken := sc.authToken.getD "", basePath := sc.basePath.getD "",
               username := sc.username, password := sc.password },
      ?_, ?_, ?_, rfl, rfl, rfl, rfl⟩
    · simp [HttpClient.initConfig, hs, hb]
    · cases hcase : sc.serverUrl with
      | none => rw [hcase] at hs; exact Bool.noConfusion hs
      | some s => simp [hcase]
    · cases hcase : sc.basePath with
      | none => rw [hcase] at hb; exact Bool.noConfusion hb
      | some s => simp [hcase]

/-- C9 witness: a complete configuration initializes with its own
values. -/
theorem claim9_witness :
    ∃ c, HttpClient.initConfig
        { serverUrl := some "http://server", basePath := some "/base" } = Except.ok c ∧
      some c.serverUrl = some "http://server" ∧ some c.basePath = some "/base" ∧
      c.authUrl = none ∧ c.authToken = "" ∧ c.username = none ∧ c.password = none :=
  (claim9_init_configuration
    { serverUrl := some "http://server", basePath := some "/base" }).2.2 (by decide) (by decide)

/-- C10: the exported validatePath of the filesystem module is the
identity on every input path; no basePath prefixing happens there. -/
theorem claim10_facade_validatePath_identity (p : String) : Filesystem.validatePath p = p :=
  rfl

/-- Splitting a trace splits its authentication count. -/
theorem authCount_append (t1 t2 : List HttpClient.Event) :
    HttpClient.authCount (t1 ++ t2) = HttpClient.authCount t1 + HttpClient.authCount t2 := by
  simp [HttpClient.authCount, List.filter_append]

/-- The combined trace of a sequence of calls is one call followed by the
rest. -/
theorem facadeCallsTrace_cons (sc : ServerConfig) (b : Bool) (e : String)
    (rest : List (ServerConfig × Bool × String)) :
    HttpClient.facadeCallsTrace ((sc, b, e) :: rest) =
      HttpClient.facadeCallTrace sc b e ++ HttpClient.facadeCallsTrace rest := rfl

/-- C4 counterexample: a provider configuration with no authToken and
with username and password, loaded by two facade calls. Each call
re-invokes init, init rebuilds the client configuration from the
provider (whose authToken is still absent, since the acquired token is
never written back), so authentication runs twice, not exactly once. -/
theorem claim4_cex :
    scNoToken.authToken = none ∧
    optStrTruthy scNoToken.username = true ∧ optStrTruthy scNoToken.password = true ∧
    HttpClient.facadeCallsTrace
        [(scNoToken, true, "read_file"), (scNoToken, true, "list_directory")] =
      [HttpClient.Event.authenticate, HttpClient.Event.request "read_file",
       HttpClient.Event.authenticate, HttpClient.Event.request "list_directory"] ∧
    HttpClient.authCount (HttpClient.facadeCallsTrace
        [(scNoToken, true, "read_file"), (scNoToken, true, "list_directory")]) = 2 :=
  ⟨rfl, rfl, rfl, rfl, rfl⟩

/-- C4 (amended): when the loaded configuration has no authToken but has
username and password (and is otherwise complete), each single init
invocation triggers authentication exactly once, before the request of
its facade call; but across repeated facade calls authentication is
re-triggered once per call, since init rebuilds the configuration from
the provider each time and the acquired token is never persisted
there. -/
theorem claim4_auth_once_per_init (sc : ServerConfig) (e : String)
    (hs : optStrTruthy sc.serverUrl = true) (hb : optStrTruthy sc.basePath = true)
    (ht : (sc.authToken.getD "").isEmpty = true)
    (hu : optStrTruthy sc.username = true) (hp : optStrTruthy sc.password = true) :
    HttpClient.facadeCallTrace sc true e =
      [HttpClient.Event.authenticate, HttpClient.Event.request e] ∧
    (∀ authOk, HttpClient.authCount (HttpClient.facadeCallTrace sc authOk e) = 1) ∧
    (∀ calls : List (Bool × String),
      HttpClient.authCount (HttpClient.facadeCallsTrace
        (calls.map (fun bc => (sc, bc.1, bc.2)))) = calls.length) := by
  have hcfg : HttpClient.initConfig sc = Except.ok
      { serverUrl := sc.serverUrl.getD "", authUrl := sc.authUrl,
        authToken := sc.authToken.getD "", basePath := sc.basePath.getD "",
        username := sc.username, password := sc.password } := by
    simp [HttpClient.initConfig, hs, hb]
  have hna : HttpClient.needsAuth
      { serverUrl := sc.serverUrl.getD "", authUrl := sc.authUrl,
        authToken := sc.authToken.getD "", basePath := sc.basePath.getD "",
        username := sc.username, password := sc.password } = true := by
    simp [HttpClient.needsAuth, ht, hu, hp]
  have hcount : ∀ (a : Bool) (ep : String),
      HttpClient.authCount (HttpClient.facadeCallTrace sc a ep) = 1 := by
    intro a ep
    cases a <;>
      simp [HttpClient.facadeCallTrace, hcfg, hna, HttpClient.authCount, List.filter]
  refine ⟨by simp [HttpClient.facadeCallTrace, hcfg, hna], fun a => hcount a e, fun calls => ?_⟩
  induction calls with
  | nil => rfl
  | cons bc rest ih =>
      obtain ⟨b, ep⟩ := bc
      simp only [List.map_cons]
      rw [facadeCallsTrace_cons, authCount_append, hcount b ep, ih, List.length_cons]
      omega

/-- C4 witness: with a complete credential-bearing configuration, one
facade call authenticates once and only then issues its request. -/
theorem claim4_witness :
    HttpClient.facadeCallTrace scNoToken true "read_file" =
      [HttpClient.Event.authenticate, HttpClient.Event.request "read_file"] :=
  (claim4_auth_once_per_init scNoToken "read_file" (by decide) (by decide) (by decide)
    (by decide) (by decide)).1

/-- C6 counterexample: a successful read_file response whose nested
`data.data` is present but falsy (the empty string, an empty file). The
claim says the nested `data.data` is returned when present; the code
evaluates `response.data?.data || response.data` and the JavaScript `||`
discards the falsy empty string, so the whole envelope object is
returned instead. -/
theorem claim6_cex :
    jsGetField (Json.obj [("data", Json.str "")]) "data" = some (Json.str "") ∧
    HttpClient.readFile (some baseCfg) { path := "/base/empty.txt" }
        (.resp 200 "OK" (.ok (Json.obj [("data", Json.str "")]))) =
      Except.ok { success := true, data? := some (Json.obj [("data", Json.str "")]) } ∧
    Json.obj [("data", Json.str "")] ≠ Json.str "" :=
  ⟨rfl, rfl, fun h => Json.noConfusion h⟩

/-- C6 (amended): on a successful read_file response, readFile returns
the nested `data.data` when it is present and truthy, and returns `data`
itself when the nested field is absent or falsy (so a present-but-falsy
nested value, such as empty file content, yields the whole object). -/
theorem claim6_readFile_unwrap (c : HttpClientConfig) (req : FileReadRequest)
    (status : Nat) (st : String) (j : Json) (h : statusOk status = true) :
    (∀ v, jsGetField j "data" = some v → v.truthy = true →
      HttpClient.readFile (some c) req (.resp status st (.ok j)) =
        Except.ok { success := true, data? := some v }) ∧
    (jsGetField j "data" = none →
      HttpClient.readFile (some c) req (.resp status st (.ok j)) =
        Except.ok { success := true, data? := some j }) ∧
    (∀ v, jsGetField j "data" = some v → v.truthy = false →
      HttpClient.readFile (some c) req (.resp status st (.ok j)) =
        Except.ok { success := true, data? := some j }) := by
  refine ⟨fun v hv htv => ?_, fun hv => ?_, fun v hv htv => ?_⟩
  · simp [HttpClient.readFile, HttpClient.makeRequest, h, hv, htv, jsOr]
  · simp [HttpClient.readFile, HttpClient.makeRequest, h, hv, jsOr]
  · simp [HttpClient.readFile, HttpClient.makeRequest, h, hv, htv, jsOr]

/-- C6 witness: a successful response with truthy nested content unwraps
to that content string. -/
theorem claim6_witness :
    HttpClient.readFile (some baseCfg) { path := "/base/a.txt" }
        (.resp 200 "OK" (.ok (Json.obj [("data", Json.str "hello")]))) =
      Except.ok { success := true, data? := some (Json.str "hello") } :=
  (claim6_readFile_unwrap baseCfg { path := "/base/a.txt" } 200 "OK"
    (Json.obj [("data", Json.str "hello")]) rfl).1 (Json.str "hello") rfl rfl

/-- C7 counterexample: a successful list_directory response containing a
non-string entry whose name is present but empty. The claim says every
non-string entry becomes a `[TYPE] name` string (type defaulting to
FILE); the code tests the truthiness of `item.name`, finds the empty
string falsy and coerces the entry with `String(item)` instead, giving
`[object Object]` rather than `[FILE] `. -/
theorem claim7_cex :
    jsGetField (Json.obj [("name", Json.str "")]) "name" = some (Json.str "") ∧
    HttpClient.listDirectory (some baseCfg) { path := "/base" }
        (.resp 200 "OK" (.ok (Json.arr [Json.obj [("name", Json.str "")]]))) =
      Except.ok { success := true, data? := some (Json.arr [Json.str "[object Object]"]) } ∧
    "[object Object]" ≠ "[FILE] " := by
  refine ⟨rfl, rfl, ?_⟩
  decide

/-- C7 (amended): on a successful list_directory response, each entry
maps to a string as follows: a string entry passes through unchanged; a
non-string entry with a truthy name becomes `[TYPE] name` with the type
tag uppercased, FILE when the type is absent; and a non-string entry
whose name is absent or falsy becomes its JavaScript string coercion. In
particular the entries `[{name: "a.txt", type: "file"}, {name: "sub",
type: "dir"}, "raw"]` map to `["[FILE] a.txt", "[DIR] sub", "raw"]`. -/
theorem claim7_listDirectory_reshaping :
    (∀ s, HttpClient.listItemToName (Json.str s) = Except.ok s) ∧
    (∀ fields v, jsGetField (Json.obj fields) "name" = some v → v.truthy = true →
      (jsGetField (Json.obj fields) "type" = none →
        HttpClient.listItemToName (Json.obj fields) =
          Except.ok ("[FILE] " ++ jsToString v)) ∧
      (∀ t, jsGetField (Json.obj fields) "type" = some (Json.str t) →
        HttpClient.listItemToName (Json.obj fields) =
          Except.ok ("[" ++ (if (jsToUpperCase t).isEmpty then "FILE" else jsToUpperCase t) ++
            "] " ++ jsToString v))) ∧
    (∀ fields, jsGetField (Json.obj fields) "name" = none →
      HttpClient.listItemToName (Json.obj fields) =
        Except.ok (jsToString (Json.obj fields))) ∧
    (∀ fields v, jsGetField (Json.obj fields) "name" = some v → v.truthy = false →
      HttpClient.listItemToName (Json.obj fields) =
        Except.ok (jsToString (Json.obj fields))) ∧
    HttpClient.listDirectory (some baseCfg) { path := "/base" }
        (.resp 200 "OK" (.ok (Json.arr [
          Json.obj [("name", Json.str "a.txt"), ("type", Json.str "file")],
          Json.obj [("name", Json.str "sub"), ("type", Json.str "dir")],
          Json.str "raw"]))) =
      Except.ok { success := true,
                  data? := some (Json.arr [Json.str "[FILE] a.txt", Json.str "[DIR] sub",
                    Json.str "raw"]) } := by
  refine ⟨fun s => rfl, fun fields v hname htv => ⟨fun htype => ?_, fun t htype => ?_⟩,
    fun fields hname => ?_, fun fields v hname htv => ?_, rfl⟩
  · simp [HttpClient.listItemToName, hname, htv, htype]
  · simp [HttpClient.listItemToName, hname, htv, htype]
  · simp [HttpClient.listItemToName, hname]
  · simp [HttpClient.listItemToName, hname, htv]

/-- C7 witness: the concrete reshaping example of the specification. -/
theorem claim7_witness :
    HttpClient.listDirectory (some baseCfg) { path := "/base" }
        (.resp 200 "OK" (.ok (Json.arr [
          Json.obj [("name", Json.str "a.txt"), ("type", Json.str "file")],
          Json.obj [("name", Json.str "sub"), ("type", Json.str "dir")],
          Json.str "raw"]))) =
      Except.ok { success := true,
                  data? := some (Json.arr [Json.str "[FILE] a.txt", Json.str "[DIR] sub",
                    Json.str "raw"]) } :=
  claim7_listDirectory_reshaping.2.2.2.2

/-- C8: readMultipleFiles returns exactly one result per input path, in
input order, with the content fields set when that read succeeds and the
error field set (to the caught message) when it throws; the batch itself
is total, never propagating an individual throw. -/
theorem claim8_readMultipleFiles_batch
    (f : String → Except (Option String) Filesystem.FileResult) (paths : List String) :
    (Filesystem.readMultipleFiles f paths).map Filesystem.MultiFileResult.path = paths ∧
    ∀ (i : Nat) (q : String), paths[i]? = some q →
      (∀ r, f q = Except.ok r → (Filesystem.readMultipleFiles f paths)[i]? =
        some { path := q, content? := some r.content, mimeType? := some r.mimeType,
               isImage? := some r.isImage, error? := none }) ∧
      (∀ e, f q = Except.error e → (Filesystem.readMultipleFiles f paths)[i]? =
        some { path := q, content? := none, mimeType? := none, isImage? := none,
               error? := some (errorMessage e) }) := by
  induction paths with
  | nil => exact ⟨rfl, fun i q hq => absurd hq (by simp)⟩
  | cons p rest ih =>
      constructor
      · cases hf : f p <;> simp [Filesystem.readMultipleFiles, hf, ih.1]
      · intro i q hq
        cases i with
        | zero =>
            simp only [List.getElem?_cons_zero, Option.some.injEq] at hq
            subst hq
            constructor
            · intro r hfr
              simp [Filesystem.readMultipleFiles, hfr]
            · intro e hfe
              simp [Filesystem.readMultipleFiles, hfe]
        | succ n =>
            have h2 := ih.2 n q (by simpa using hq)
            constructor
            · intro r hfr
              have hres := h2.1 r hfr
              cases hf : f p <;> simp [Filesystem.readMultipleFiles, hf, hres]
            · intro e hfe
              have hres := h2.2 e hfe
              cases hf : f p <;> simp [Filesystem.readMultipleFiles, hf, hres]

/-- C8 witness: reading `/a` and `/missing`, where `/missing` throws,
yields one content entry and one error entry in input order. -/
theorem claim8_witness :
    (Filesystem.readMultipleFiles fEx ["/a", "/missing"]).map Filesystem.MultiFileResult.path =
      ["/a", "/missing"] ∧
    (Filesystem.readMultipleFiles fEx ["/a", "/missing"])[0]? =
      some { path := "/a", content? := some "A", mimeType? := some "text/plain",
             isImage? := some false, error? := none } ∧
    (Filesystem.readMultipleFiles fEx ["/a", "/missing"])[1]? =
      some { path := "/missing", content? := none, mimeType? := none, isImage? := none,
             error? := some "HTTP 404: Not Found" } := by
  refine ⟨(claim8_readMultipleFiles_batch fEx ["/a", "/missing"]).1, ?_, ?_⟩
  · exact ((claim8_readMultipleFiles_batch fEx ["/a", "/missing"]).2 0 "/a" rfl).1
      { content := "A", mimeType := "text/plain", isImage := false } rfl
  · exact ((claim8_readMultipleFiles_batch fEx ["/a", "/missing"]).2 1 "/missing" rfl).2
      (some "HTTP 404: Not Found") rfl

end RC
